import Mathlib

/-!
Verification of the fault-interception and execution-protection core
(`src/lib/singlepass-backend/src/protect_unix.rs`).

The Rust module is embedded shallowly:

* The thread-local statics (`SETJMP_BUFFER`, `TRAP_EARLY_DATA`, `CAUGHT_FAULTS`,
  `BKPT_MAP`) together with the process-wide `SIGHANDLER_INIT` latch and the set
  of `sigaction` registrations form an explicit `State` record that is passed
  and returned by every operation.
* `setjmp`/`longjmp` control transfer is made explicit by an `Outcome` type:
  a computation either returns normally, or is a `longjmp` in flight towards a
  saved buffer value, or aborts the process.  Per C semantics, `longjmp (env, v)`
  makes the corresponding `setjmp` return `v`, except that `v = 0` is delivered
  as `1`; in particular the resuming `setjmp` never returns `0`, so the
  `signum != 0` test in `call_protected` selects exactly the resumption branch.
* The error payload `Box<dyn Any>` is an opaque type parameter `P`.
* Breakpoint callbacks (`Box<Fn(BkptInfo)>`) are opaque and identified by a
  `Nat` id; "invoking" a callback is recorded as which id was invoked.
* Terminal coloring (the `colored` crate's `bold`/`red`/`yellow`/`cyan`
  wrappers) is elided: with coloring disabled the crate returns the text
  unchanged, and every claim is about the textual content of the report.
* `read_stack`, `get_fault_info` and the `vm::Ctx` lookup live in the external
  crate `wasmer_runtime_core` (outside this repository's sources); their
  results (`frames`, `FaultInfo`) are taken as parameters.
-/

namespace ProtectUnix

/-- Length of the `setjmp` buffer: `const SETJMP_BUFFER_LEN: usize = 27`. -/
def SETJMP_BUFFER_LEN : Nat := 27

/-- A `[c_int; SETJMP_BUFFER_LEN]` jump buffer value. -/
abbrev Buf := List Int

/-- The all-zero sentinel `[0; SETJMP_BUFFER_LEN]` meaning "no active scope". -/
def zeroBuf : Buf := List.replicate SETJMP_BUFFER_LEN 0

/-- The fault snapshot `FaultInfo \x7b faulting_addr, ip, known_registers \x7d`;
pointers are modelled as numbers. -/
structure FaultInfo where
  faulting_addr : Nat
  ip : Nat
  known_registers : List (Option Nat)
deriving DecidableEq, Repr

/-- One breakpoint table: `HashMap<usize, Box<Fn(BkptInfo)>>`, modelled as an
association list from instruction address to an opaque callback id. -/
abbrev BkptTable := List (Nat × Nat)

/-- The thread-local and process-wide mutable state of `protect_unix.rs`:
`SETJMP_BUFFER`, `TRAP_EARLY_DATA`, `CAUGHT_FAULTS`, `BKPT_MAP` (thread-local
statics), plus the `SIGHANDLER_INIT : Once` latch and the record of `sigaction`
registrations performed so far.  `P` is the opaque payload type of
`Box<dyn Any>`. -/
structure State (P : Type) where
  SETJMP_BUFFER : Buf
  TRAP_EARLY_DATA : Option P
  CAUGHT_FAULTS : Option FaultInfo
  BKPT_MAP : List BkptTable
  sighandler_init_done : Bool
  installed_actions : List Int
deriving DecidableEq

/-- Outcome of running a piece of code in this module: normal return with a
value and a post-state, a `longjmp` in flight towards the buffer value
`target` with argument `val`, or `std::process::abort()`. -/
inductive Outcome (P : Type) (T : Type) where
  | ret (v : T) (s : State P)
  | longjmp (target : Buf) (val : Int) (s : State P)
  | abort
deriving DecidableEq

/-- The value a resuming `setjmp` observes for a `longjmp` argument `v`:
C guarantees `0` is delivered as `1`. -/
def setjmpReturn (v : Int) : Int := if v = 0 then 1 else v

/- Linux x86-64 signal numbers used by the module (`nix::sys::signal`). -/

def SIGILL : Int := 4
def SIGTRAP : Int := 5
def SIGBUS : Int := 7
def SIGFPE : Int := 8
def SIGSEGV : Int := 11

/-- The five fault signals registered by `install_sighandler`, in registration
order. -/
def fault_signals : List Int := [SIGFPE, SIGILL, SIGSEGV, SIGBUS, SIGTRAP]

/-- `install_sighandler()`: performs the five `sigaction` registrations. -/
def install_sighandler {P : Type} (s : State P) : State P :=
  { s with installed_actions := s.installed_actions ++ fault_signals }

/-- `SIGHANDLER_INIT.call_once(|| install_sighandler())`: runs the installer
only if the `Once` latch has not fired yet, then marks it fired. -/
def sighandler_init_call_once {P : Type} (s : State P) : State P :=
  if s.sighandler_init_done then s
  else { install_sighandler s with sighandler_init_done := true }

/-- `WasmTrapInfo` from `wasmer_runtime_core::typed_func`; only the `Unknown`
variant is used by this module. -/
inductive WasmTrapInfo where
  | Unknown
deriving DecidableEq

/-- `pub enum CallProtError \x7b Trap(WasmTrapInfo), Error(Box<dyn Any>) \x7d`. -/
inductive CallProtError (P : Type) where
  | Trap (info : WasmTrapInfo)
  | Error (payload : P)
deriving DecidableEq

/-- `pub unsafe fn throw(payload: Box<dyn Any>) -> !`: abort if the thread
buffer is the all-zero sentinel, otherwise store the payload in
`TRAP_EARLY_DATA` and `longjmp` to the current buffer contents with `0xffff`. -/
def throw {P T : Type} (s : State P) (payload : P) : Outcome P T :=
  if s.SETJMP_BUFFER = zeroBuf then .abort
  else .longjmp s.SETJMP_BUFFER 0xffff { s with TRAP_EARLY_DATA := some payload }

/-- `pub unsafe fn do_unwind(signum, siginfo, ucontext) -> !`: abort if the
thread buffer is the all-zero sentinel, otherwise record the decoded fault in
`CAUGHT_FAULTS` and `longjmp` to the current buffer contents with `signum`.
`get_fault_info(siginfo, ucontext)` is external register decoding; its result
is the parameter `fault`. -/
def do_unwind {P T : Type} (signum : Int) (fault : FaultInfo) (s : State P) : Outcome P T :=
  if s.SETJMP_BUFFER = zeroBuf then .abort
  else .longjmp s.SETJMP_BUFFER signum { s with CAUGHT_FAULTS := some fault }

/-- `pub unsafe fn trigger_trap() -> !`: `longjmp(jmp_buf, 0)` with no
sentinel check. -/
def trigger_trap {P T : Type} (s : State P) : Outcome P T :=
  .longjmp s.SETJMP_BUFFER 0 s

/-- The thread state as seen by the body of `call_protected`: the
`SIGHANDLER_INIT` latch has run and the direct `setjmp` call has written the
machine context `mybuf` into `SETJMP_BUFFER`. -/
def enterScope {P : Type} (mybuf : Buf) (s : State P) : State P :=
  { sighandler_init_call_once s with SETJMP_BUFFER := mybuf }

/-- `pub fn call_protected<T>(f: impl FnOnce() -> T) -> Result<T, CallProtError>`.

The body `f` is a state transformer (it may read and write the thread-local
state, call nested `call_protected`, `throw`, or fault).  `mybuf` is the
machine-context value the direct `setjmp` call writes into `SETJMP_BUFFER`.
Steps, in source order: read `prev_jmp_buf` (which is `s.SETJMP_BUFFER`; the
latch does not touch the buffer), run the `SIGHANDLER_INIT` latch, `setjmp`
(install `mybuf`, return 0, run `f`).  If `f` returns normally the saved
buffer is written back and `Ok` returned.  If a `longjmp` towards `mybuf`
arrives, `setjmp` returns the delivered nonzero value: the saved buffer is
written back first, then `TRAP_EARLY_DATA` is consumed into `Err(Error(data))`
if present, else `Err(Trap(Unknown))` (the buffer write-back does not touch
`TRAP_EARLY_DATA`, so reading the slot before or after it is the same).  A
`longjmp` towards any other buffer value bypasses this frame. -/
def call_protected {P T : Type} (mybuf : Buf) (f : State P → Outcome P T)
    (s : State P) : Outcome P (Except (CallProtError P) T) :=
  match f (enterScope mybuf s) with
  | .ret v s2 => .ret (.ok v) { s2 with SETJMP_BUFFER := s.SETJMP_BUFFER }
  | .longjmp target val s2 =>
      if target = mybuf then
        match s2.TRAP_EARLY_DATA with
        | some data =>
            .ret (.error (.Error data))
              { s2 with SETJMP_BUFFER := s.SETJMP_BUFFER, TRAP_EARLY_DATA := none }
        | none =>
            .ret (.error (.Trap .Unknown)) { s2 with SETJMP_BUFFER := s.SETJMP_BUFFER }
      else .longjmp target val s2
  | .abort => .abort

/-- The `longjmp` argument carried by an outcome, if it is a jump. -/
def Outcome.jumpVal? {P T : Type} : Outcome P T → Option Int
  | .longjmp _ v _ => some v
  | _ => none

/-- A concrete thread state used in witnesses: fresh thread, no active scope
(`SETJMP_BUFFER` is the all-zero sentinel), all slots empty, latch unfired. -/
def initState : State Nat :=
  { SETJMP_BUFFER := zeroBuf
    TRAP_EARLY_DATA := none
    CAUGHT_FAULTS := none
    BKPT_MAP := []
    sighandler_init_done := false
    installed_actions := [] }

/-- A concrete nonzero jump-buffer value (a machine context) used in
witnesses. -/
def bufA : Buf := List.replicate SETJMP_BUFFER_LEN 1

/-- A second, distinct concrete nonzero jump-buffer value. -/
def bufB : Buf := List.replicate SETJMP_BUFFER_LEN 2

/-- `fn join_strings(x, sep)`, inner loop: `ret` is the accumulator, `first`
the first-iteration flag; on later iterations `ret += sep; ret += &s`. -/
def joinGo (sep : String) : String → Bool → List String → String
  | ret, _, [] => ret
  | ret, true, s :: rest => joinGo sep (ret ++ s) false rest
  | ret, false, s :: rest => joinGo sep (ret ++ sep ++ s) false rest

/-- `fn join_strings(x: impl Iterator<Item = String>, sep: &str) -> String`. -/
def join_strings (x : List String) (sep : String) : String :=
  joinGo sep "" true x

/-- `fn format_optional_u64_sequence(x: &[Option<u64>]) -> String` (coloring
of the value part elided). -/
def format_optional_u64_sequence (x : List (Option Nat)) : String :=
  if x.length = 0 then "(empty)"
  else
    join_strings
      (x.enum.map fun p =>
        "[" ++ toString p.1 ++ "] = " ++
          (match p.2 with
           | some v => toString v
           | none => "?"))
      ", "

/-- The innermost buffer installed by a tower of nested protected calls:
`b` is the outermost scope's buffer, `bufs` the buffers of the successively
nested scopes, innermost last. -/
def innermostBuf : Buf → List Buf → Buf
  | b, [] => b
  | _, b2 :: rest => innermostBuf b2 rest

/-- What the innermost body of a nesting tower does: an explicit `throw` of a
payload, or a hardware fault handed to `do_unwind`. -/
inductive InnerAct (P : Type) where
  | throwAct (p : P)
  | faultAct (signum : Int) (fi : FaultInfo)

/-- Run the innermost action of a nesting tower. -/
def innerRun {P T : Type} : InnerAct P → State P → Outcome P T
  | .throwAct p, s => throw s p
  | .faultAct signum fi, s => do_unwind signum fi s

/-- A tower of nested `call_protected` scopes: with `bufs = []` the body just
performs the innermost action; with `bufs = b2 :: rest` the body runs a nested
`call_protected` with buffer `b2` and, whatever typed result that inner scope
returns, goes on to exit normally with value `v`. -/
def deepBody {P T : Type} (act : InnerAct P) (v : T) : List Buf → State P → Outcome P T
  | [], s => innerRun act s
  | b2 :: rest, s =>
      match call_protected b2 (deepBody act v rest) s with
      | .ret _ s2 => .ret v s2
      | .longjmp target val s2 => .longjmp target val s2
      | .abort => .abort

/-- The typed result a scope of the tower returns: the innermost scope catches
the action as the corresponding `Err`, and every enclosing scope, exiting
normally, returns its own `Ok v`. -/
def deepResult {P T : Type} (act : InnerAct P) (v : T) :
    List Buf → Except (CallProtError P) T
  | [] =>
      match act with
      | .throwAct p => .error (.Error p)
      | .faultAct _ _ => .error (.Trap .Unknown)
  | _ :: _ => .ok v

/-- A logical call frame as produced by `read_stack` and consumed by the
handler: `local_function_id`, `locals`, `stack`. -/
structure WasmFrame where
  local_function_id : Nat
  locals : List (Option Nat)
  stack : List (Option Nat)
deriving DecidableEq

/-- What the signal handler does after decoding the fault: invoke a matching
breakpoint callback and return without unwinding, or fall through to
`do_unwind`. -/
inductive HandlerResult (P : Type) where
  | resumed (callback : Nat) (s : State P)
  | unwound (out : Outcome P PUnit)
deriving DecidableEq

/-- The header line `eprintln!("\n\x7b\x7d\n", "Wasmer encountered ...")`. -/
def errorHeader : String :=
  "\nWasmer encountered an error while running your WebAssembly program.\n"

/-- The line printed when the stack walk yields no frames. -/
def cannotReadStackMsg : String := "Unknown fault address, cannot read stack."

/-- The backtrace header `eprintln!("\x7b\x7d\n", "Backtrace:")`. -/
def backtraceHeader : String := "Backtrace:\n"

/-- The four lines printed for frame number `i`. -/
def frameLines (i : Nat) (f : WasmFrame) : List String :=
  ["* Frame " ++ toString i ++ " @ Local function " ++ toString f.local_function_id,
   "  Locals: " ++ format_optional_u64_sequence f.locals,
   "  Stack: " ++ format_optional_u64_sequence f.stack,
   ""]

/-- The diagnostic report written to stderr by the fault path of
`signal_trap_handler` (source lines 92-104): header, then either the single
cannot-read-stack line (when `frames.len() == 0`) or the backtrace. -/
def renderReport (frames : List WasmFrame) : List String :=
  errorHeader ::
    (if frames.length = 0 then [cannotReadStackMsg]
     else backtraceHeader :: (frames.enum.map fun p => frameLines p.1 p.2).flatten)

/-- `extern fn signal_trap_handler(signum, siginfo, ucontext)`.  `fault` is
`get_fault_info(siginfo, ucontext)` and `frames` the `read_stack` result (both
computed by external `wasmer_runtime_core` code).  For the debug-trap signal,
the most-recently-pushed breakpoint table (`BKPT_MAP.with(|x| x.borrow().last())`)
is consulted for the faulting instruction pointer: a hit invokes that callback
and returns without unwinding and without output.  Anything else prints the
diagnostic report and hands off to `do_unwind`. -/
def signal_trap_handler {P : Type} (signum : Int) (fault : FaultInfo)
    (frames : List WasmFrame) (s : State P) : List String × HandlerResult P :=
  if signum = SIGTRAP then
    match s.BKPT_MAP.getLast? with
    | some table =>
        match table.lookup fault.ip with
        | some callback => ([], .resumed callback s)
        | none => (renderReport frames, .unwound (do_unwind signum fault s))
    | none => (renderReport frames, .unwound (do_unwind signum fault s))
  else (renderReport frames, .unwound (do_unwind signum fault s))

/-- Dispatch as claim C5 words it: scan the pushed tables from the most
recently pushed (the last list element) downward; the first table containing
the address wins.  This is the spec's described behavior, stated for
comparison with `signal_trap_handler`. -/
def specScanDispatch : List BkptTable → Nat → Option Nat
  | [], _ => none
  | t :: rest, ip =>
      match specScanDispatch rest ip with
      | some callback => some callback
      | none => t.lookup ip

theorem joinGo_false_eq_intercalate_go (sep : String) (l : List String) :
    ∀ acc : String, joinGo sep acc false l = String.intercalate.go acc sep l := by
  induction l with
  | nil => intro acc; rfl
  | cons s rest ih => intro acc; simp only [joinGo, String.intercalate.go, ih]

/-- `join_strings` agrees with the standard separator join. -/
theorem join_strings_eq_intercalate (l : List String) (sep : String) :
    join_strings l sep = String.intercalate sep l := by
  cases l with
  | nil => rfl
  | cons s rest =>
    show joinGo sep ("" ++ s) false rest = String.intercalate.go s sep rest
    rw [String.empty_append]
    exact joinGo_false_eq_intercalate_go sep rest s

/-- Claim C9: `format_optional_u64_sequence` returns `"(empty)"` on the empty
sequence, and otherwise the entries `[i] = v` (with `?` for an absent value)
joined by `", "` with no leading or trailing separator, i.e. exactly
`String.intercalate ", "` of the entry strings. -/
theorem C9_format_optional_u64_sequence (x : List (Option Nat)) (hx : x ≠ []) :
    format_optional_u64_sequence [] = "(empty)" ∧
    format_optional_u64_sequence x =
      String.intercalate ", "
        (x.enum.map fun p =>
          "[" ++ toString p.1 ++ "] = " ++
            (match p.2 with
             | some v => toString v
             | none => "?")) := by
  refine ⟨rfl, ?_⟩
  rw [format_optional_u64_sequence, if_neg (by simpa using hx)]
  exact join_strings_eq_intercalate _ _

/-- Witness for C9 at the concrete input `[some 7, none, some 3]`. -/
theorem C9_witness :
    ([some 7, none, some 3] : List (Option Nat)) ≠ [] ∧
    format_optional_u64_sequence [] = "(empty)" ∧
    format_optional_u64_sequence [some 7, none, some 3] =
      "[0] = 7, [1] = ?, [2] = 3" := by
  refine ⟨by decide, (C9_format_optional_u64_sequence [some 7, none, some 3] (by decide)).1, ?_⟩
  have h := (C9_format_optional_u64_sequence [some 7, none, some 3] (by decide)).2
  rw [h]; rfl

/-- Claim C1: if the body `f` returns normally with value `v`, then
`call_protected` returns `Ok v`, and the thread's `SETJMP_BUFFER` contents
after the call equal its contents before the call (the saved `prev_jmp_buf`
is written back on the normal-return path). -/
theorem C1_normal_return {P T : Type} (mybuf : Buf) (f : State P → Outcome P T)
    (s s2 : State P) (v : T)
    (h : f (enterScope mybuf s) = .ret v s2) :
    call_protected mybuf f s =
      .ret (.ok v) { s2 with SETJMP_BUFFER := s.SETJMP_BUFFER } := by
  unfold call_protected
  rw [h]

/-- Witness for C1: a body returning `37` on a fresh thread. -/
theorem C1_witness :
    (fun st : State Nat => Outcome.ret (37 : Nat) st) (enterScope bufA initState) =
      .ret 37 (enterScope bufA initState) ∧
    call_protected bufA (fun st => Outcome.ret (37 : Nat) st) initState =
      .ret (.ok 37)
        { enterScope bufA initState with SETJMP_BUFFER := initState.SETJMP_BUFFER } :=
  ⟨rfl, C1_normal_return bufA _ initState _ 37 rfl⟩

/-- Claim C2: a `throw p` executed inside `f` under an enclosing
`call_protected` (targeting that scope's installed buffer) makes
`call_protected` return `Err(Error p)` with the identical payload, with
`TRAP_EARLY_DATA` empty after the call and the saved buffer restored; and an
abnormal resumption with no pending payload returns `Err(Trap Unknown)`. -/
theorem C2_throw_caught {P T : Type} (mybuf : Buf) (s : State P)
    (hb : mybuf ≠ zeroBuf) :
    (∀ (f : State P → Outcome P T) (t : State P) (p : P),
      t.SETJMP_BUFFER = mybuf →
      f (enterScope mybuf s) = throw t p →
      call_protected mybuf f s =
        .ret (.error (.Error p))
          { t with SETJMP_BUFFER := s.SETJMP_BUFFER, TRAP_EARLY_DATA := none }) ∧
    (∀ (g : State P → Outcome P T) (u : State P) (c : Int),
      u.TRAP_EARLY_DATA = none →
      g (enterScope mybuf s) = .longjmp mybuf c u →
      call_protected mybuf g s =
        .ret (.error (.Trap .Unknown)) { u with SETJMP_BUFFER := s.SETJMP_BUFFER }) := by
  constructor
  · intro f t p ht hf
    unfold call_protected
    rw [hf]
    unfold throw
    rw [ht, if_neg hb]
    simp

  · intro g u c hu hg
    unfold call_protected
    rw [hg]
    simp [hu]

/-- Witness for C2 at a concrete thrown payload `42` and a concrete
jump-resumption with an empty pending slot. -/
theorem C2_witness :
    bufA ≠ zeroBuf ∧
    call_protected bufA (fun st : State Nat => throw (T := Nat) st 42) initState =
      .ret (.error (.Error 42))
        { enterScope bufA initState with
            SETJMP_BUFFER := initState.SETJMP_BUFFER, TRAP_EARLY_DATA := none } ∧
    call_protected bufA
        (fun _ : State Nat =>
          Outcome.longjmp (T := Nat) bufA 11 (enterScope bufA initState)) initState =
      .ret (.error (.Trap .Unknown))
        { enterScope bufA initState with SETJMP_BUFFER := initState.SETJMP_BUFFER } := by
  have hb : bufA ≠ zeroBuf := by decide
  refine ⟨hb, ?_, ?_⟩
  · exact (C2_throw_caught bufA initState hb).1 _ _ 42 rfl rfl
  · exact (C2_throw_caught bufA initState hb).2 _ _ 11 rfl rfl

/-- Claim C3: with no active protected scope (thread buffer equal to the
all-zero sentinel), both `throw` and `do_unwind` abort the process — neither
jumps nor returns an error value. -/
theorem C3_no_scope_aborts {P T : Type} (s : State P) (p : P) (signum : Int)
    (fi : FaultInfo) (h : s.SETJMP_BUFFER = zeroBuf) :
    @throw P T s p = .abort ∧ @do_unwind P T signum fi s = .abort := by
  constructor
  · unfold throw
    rw [if_pos h]
  · unfold do_unwind
    rw [if_pos h]

/-- Witness for C3 on a fresh thread (sentinel buffer). -/
theorem C3_witness :
    initState.SETJMP_BUFFER = zeroBuf ∧
    @throw Nat Nat initState 5 = .abort ∧
    @do_unwind Nat Nat SIGSEGV ⟨0, 0, []⟩ initState = .abort :=
  ⟨rfl,
   (C3_no_scope_aborts initState 5 SIGSEGV ⟨0, 0, []⟩ rfl).1,
   (C3_no_scope_aborts initState 5 SIGSEGV ⟨0, 0, []⟩ rfl).2⟩

theorem sighandler_init_call_once_idem {P : Type} (s : State P) :
    sighandler_init_call_once (sighandler_init_call_once s) =
      sighandler_init_call_once s := by
  cases hd : s.sighandler_init_done <;>
    simp [sighandler_init_call_once, hd, install_sighandler]

/-- Claim C6: handler installation is guarded by the run-once latch: invoking
the installation entry point any number of times equals invoking it once, and
on a state where the latch is unfired the single invocation performs exactly
the five `sigaction` registrations and fires the latch. -/
theorem C6_install_once {P : Type} (s : State P) (n : Nat)
    (h : s.sighandler_init_done = false) :
    sighandler_init_call_once^[n + 1] s = sighandler_init_call_once s ∧
    (sighandler_init_call_once s).installed_actions =
      s.installed_actions ++ fault_signals ∧
    (sighandler_init_call_once s).sighandler_init_done = true := by
  refine ⟨?_, ?_, ?_⟩
  · induction n with
    | zero => rfl
    | succ k ih =>
        rw [Function.iterate_succ_apply', ih, sighandler_init_call_once_idem]
  · simp [sighandler_init_call_once, h, install_sighandler]
  · simp [sighandler_init_call_once, h]

/-- Witness for C6: three invocations on a fresh thread state equal one, which
registers the five fault signals. -/
theorem C6_witness :
    initState.sighandler_init_done = false ∧
    sighandler_init_call_once^[3] initState = sighandler_init_call_once initState ∧
    (sighandler_init_call_once initState).installed_actions =
      initState.installed_actions ++ fault_signals ∧
    (sighandler_init_call_once initState).sighandler_init_done = true :=
  ⟨rfl, C6_install_once initState 2 rfl⟩

/-- Claim C7: `throw` jumps with the reserved code `0xffff`, `do_unwind` jumps
with the original OS signal number; for every real OS signal number (1..64)
the two codes differ, both as raw `longjmp` arguments and as the values
delivered to the resuming `setjmp`. -/
theorem C7_jump_codes {P T : Type} (s t : State P) (p : P) (fi : FaultInfo)
    (signum : Int) (h1 : 1 ≤ signum) (h2 : signum ≤ 64)
    (hs : s.SETJMP_BUFFER ≠ zeroBuf) (ht : t.SETJMP_BUFFER ≠ zeroBuf) :
    (@throw P T s p).jumpVal? = some 0xffff ∧
    (@do_unwind P T signum fi t).jumpVal? = some signum ∧
    (0xffff : Int) ≠ signum ∧
    setjmpReturn 0xffff ≠ setjmpReturn signum := by
  refine ⟨?_, ?_, by omega, ?_⟩
  · unfold throw
    rw [if_neg hs]
    rfl
  · unfold do_unwind
    rw [if_neg ht]
    rfl
  · unfold setjmpReturn
    rw [if_neg (by omega), if_neg (by omega)]
    omega

/-- Witness for C7 at `signum = SIGSEGV` on concrete states with installed
buffers. -/
theorem C7_witness :
    (1 : Int) ≤ SIGSEGV ∧ SIGSEGV ≤ 64 ∧ bufA ≠ zeroBuf ∧
    (@throw Nat Nat { initState with SETJMP_BUFFER := bufA } 9).jumpVal? =
      some 0xffff ∧
    (@do_unwind Nat Nat SIGSEGV ⟨0, 0, []⟩
        { initState with SETJMP_BUFFER := bufA }).jumpVal? = some SIGSEGV ∧
    (0xffff : Int) ≠ SIGSEGV := by
  have h := C7_jump_codes (P := Nat) (T := Nat)
    { initState with SETJMP_BUFFER := bufA } { initState with SETJMP_BUFFER := bufA }
    9 ⟨0, 0, []⟩ SIGSEGV (by decide) (by decide) (by decide) (by decide)
  exact ⟨by decide, by decide, by decide, h.1, h.2.1, h.2.2.1⟩

/-- Claim C10: `trigger_trap` performs its `longjmp` unconditionally — for
every thread state, including one whose buffer is the all-zero sentinel, it
emits the jump (with argument 0) and never takes an abort path. -/
theorem C10_trigger_trap_unconditional {P T : Type} (s : State P) :
    @trigger_trap P T s = .longjmp s.SETJMP_BUFFER 0 s ∧
    @trigger_trap P T s ≠ .abort :=
  ⟨rfl, fun h => Outcome.noConfusion h⟩

theorem call_once_preserves_SETJMP_BUFFER {P : Type} (s : State P) :
    (sighandler_init_call_once s).SETJMP_BUFFER = s.SETJMP_BUFFER := by
  cases hd : s.sighandler_init_done <;>
    simp [sighandler_init_call_once, hd, install_sighandler]

theorem call_once_preserves_TRAP_EARLY_DATA {P : Type} (s : State P) :
    (sighandler_init_call_once s).TRAP_EARLY_DATA = s.TRAP_EARLY_DATA := by
  cases hd : s.sighandler_init_done <;>
    simp [sighandler_init_call_once, hd, install_sighandler]

theorem enterScope_SETJMP_BUFFER {P : Type} (mybuf : Buf) (s : State P) :
    (enterScope mybuf s).SETJMP_BUFFER = mybuf := rfl

theorem enterScope_TRAP_EARLY_DATA {P : Type} (mybuf : Buf) (s : State P) :
    (enterScope mybuf s).TRAP_EARLY_DATA = s.TRAP_EARLY_DATA :=
  call_once_preserves_TRAP_EARLY_DATA s

/-- Claim C4: for every nesting depth, a throw or fault inside the innermost
active scope resumes that scope alone (the innermost scope returns the
corresponding `Err`), and an outer `call_protected` that later exits normally
still returns its own `Ok` result, with the thread buffer it saved on its own
frame restored. -/
theorem C4_nesting {P T : Type} (act : InnerAct P) (v : T) :
    ∀ (bufs : List Buf) (b : Buf) (s : State P),
      innermostBuf b bufs ≠ zeroBuf →
      s.TRAP_EARLY_DATA = none →
      ∃ sf : State P,
        call_protected b (deepBody act v bufs) s = .ret (deepResult act v bufs) sf ∧
        sf.SETJMP_BUFFER = s.SETJMP_BUFFER ∧
        sf.TRAP_EARLY_DATA = none := by
  intro bufs
  induction bufs with
  | nil =>
      intro b s hb hted
      have hb0 : b ≠ zeroBuf := hb
      cases act with
      | throwAct p =>
          have hbody : deepBody (InnerAct.throwAct p) v [] (enterScope b s) =
              Outcome.longjmp b 0xffff
                { enterScope b s with TRAP_EARLY_DATA := some p } := by
            show throw (enterScope b s) p = _
            unfold throw
            rw [enterScope_SETJMP_BUFFER, if_neg hb0]
            rfl
          refine ⟨{ enterScope b s with
                    SETJMP_BUFFER := s.SETJMP_BUFFER
                    TRAP_EARLY_DATA := none }, ?_, rfl, rfl⟩
          unfold call_protected
          rw [hbody]
          simp [deepResult]
      | faultAct signum fi =>
          have hbody : deepBody (InnerAct.faultAct signum fi) v [] (enterScope b s) =
              Outcome.longjmp b signum
                { enterScope b s with CAUGHT_FAULTS := some fi } := by
            show do_unwind signum fi (enterScope b s) = _
            unfold do_unwind
            rw [enterScope_SETJMP_BUFFER, if_neg hb0]
            rfl
          have hted2 : (enterScope b s).TRAP_EARLY_DATA = none := by
            rw [enterScope_TRAP_EARLY_DATA, hted]
          refine ⟨{ enterScope b s with
                    SETJMP_BUFFER := s.SETJMP_BUFFER
                    CAUGHT_FAULTS := some fi }, ?_, rfl, hted2⟩
          unfold call_protected
          rw [hbody]
          simp [deepResult, hted2]
  | cons b2 rest ih =>
      intro b s hb hted
      have hb2 : innermostBuf b2 rest ≠ zeroBuf := hb
      have hted2 : (enterScope b s).TRAP_EARLY_DATA = none := by
        rw [enterScope_TRAP_EARLY_DATA, hted]
      obtain ⟨sf, heq, hbuf, hted3⟩ := ih b2 (enterScope b s) hb2 hted2
      refine ⟨{ sf with SETJMP_BUFFER := s.SETJMP_BUFFER }, ?_, rfl, hted3⟩
      unfold call_protected deepBody
      rw [heq]
      rfl

/-- Witness for C4: two nested scopes (`bufA` outer, `bufB` inner) around a
thrown payload `42`; the outer scope returns `Ok 7` on a fresh thread. -/
theorem C4_witness :
    innermostBuf bufA [bufB] ≠ zeroBuf ∧
    initState.TRAP_EARLY_DATA = none ∧
    ∃ sf : State Nat,
      call_protected bufA (deepBody (InnerAct.throwAct 42) (7 : Nat) [bufB]) initState =
        .ret (deepResult (InnerAct.throwAct 42) 7 [bufB]) sf ∧
      sf.SETJMP_BUFFER = initState.SETJMP_BUFFER ∧
      sf.TRAP_EARLY_DATA = none :=
  ⟨by decide, rfl,
   C4_nesting (InnerAct.throwAct 42) 7 [bufB] bufA initState (by decide) rfl⟩

/-- Counterexample for claim C5 as stated: with the table stack
`[[(100, 7)], []]` (the table containing address `100` was pushed first, an
empty table most recently) and a debug trap at instruction pointer `100`, the
downward scan described by the spec finds callback `7`, but
`signal_trap_handler` consults only the most-recently-pushed table, finds
nothing, and falls through to `do_unwind` instead of invoking the callback. -/
theorem C5_counterexample :
    specScanDispatch [[(100, 7)], []] 100 = some 7 ∧
    (signal_trap_handler (P := Nat) SIGTRAP ⟨0, 100, []⟩ []
        { initState with BKPT_MAP := [[(100, 7)], []], SETJMP_BUFFER := bufA }).2 =
      .unwound (.longjmp bufA SIGTRAP
        { initState with
          BKPT_MAP := [[(100, 7)], []]
          SETJMP_BUFFER := bufA
          CAUGHT_FAULTS := some ⟨0, 100, []⟩ }) ∧
    (signal_trap_handler (P := Nat) SIGTRAP ⟨0, 100, []⟩ []
        { initState with BKPT_MAP := [[(100, 7)], []], SETJMP_BUFFER := bufA }).2 ≠
      .resumed 7
        { initState with BKPT_MAP := [[(100, 7)], []], SETJMP_BUFFER := bufA } := by
  refine ⟨rfl, ?_, ?_⟩ <;> decide

/-- Claim C5 amended: on a debug trap, dispatch consults only the
most-recently-pushed breakpoint table; if that table contains the instruction
pointer its callback is invoked and the handler returns without unwinding and
without output; otherwise — including when only an earlier-pushed table
contains the address, and for every non-debug-trap signal — handling falls
through to the diagnostic report plus `do_unwind`. -/
theorem C5_top_table_dispatch {P : Type} (fault : FaultInfo)
    (frames : List WasmFrame) (s : State P) :
    (∀ table callback, s.BKPT_MAP.getLast? = some table →
      table.lookup fault.ip = some callback →
      signal_trap_handler SIGTRAP fault frames s = ([], .resumed callback s)) ∧
    (∀ table, s.BKPT_MAP.getLast? = some table →
      table.lookup fault.ip = none →
      signal_trap_handler SIGTRAP fault frames s =
        (renderReport frames, .unwound (do_unwind SIGTRAP fault s))) ∧
    (s.BKPT_MAP.getLast? = none →
      signal_trap_handler SIGTRAP fault frames s =
        (renderReport frames, .unwound (do_unwind SIGTRAP fault s))) ∧
    (∀ signum : Int, signum ≠ SIGTRAP →
      signal_trap_handler signum fault frames s =
        (renderReport frames, .unwound (do_unwind signum fault s))) := by
  refine ⟨?_, ?_, ?_, ?_⟩
  · intro table callback hlast hget
    unfold signal_trap_handler
    rw [if_pos rfl]
    simp only [hlast, hget]
  · intro table hlast hget
    unfold signal_trap_handler
    rw [if_pos rfl]
    simp only [hlast, hget]
  · intro hlast
    unfold signal_trap_handler
    rw [if_pos rfl]
    simp only [hlast]
  · intro signum hs
    unfold signal_trap_handler
    rw [if_neg hs]

/-- Witness for C5 (amended): a single pushed table containing the trap
address invokes its callback; the same state misses at another address and
falls through. -/
theorem C5_witness :
    (({ initState with BKPT_MAP := [[(100, 7)]] } : State Nat).BKPT_MAP.getLast? =
        some [(100, 7)]) ∧
    ([(100, 7)] : BkptTable).lookup (100 : Nat) = some 7 ∧
    signal_trap_handler (P := Nat) SIGTRAP ⟨0, 100, []⟩ []
        { initState with BKPT_MAP := [[(100, 7)]] } =
      ([], .resumed 7 { initState with BKPT_MAP := [[(100, 7)]] }) ∧
    signal_trap_handler (P := Nat) SIGTRAP ⟨0, 200, []⟩ []
        { initState with BKPT_MAP := [[(100, 7)]] } =
      (renderReport [],
        .unwound (do_unwind SIGTRAP ⟨0, 200, []⟩
          { initState with BKPT_MAP := [[(100, 7)]] })) := by
  refine ⟨rfl, by decide, ?_, ?_⟩
  · exact (C5_top_table_dispatch (P := Nat) ⟨0, 100, []⟩ []
      { initState with BKPT_MAP := [[(100, 7)]] }).1 [(100, 7)] 7 rfl (by decide)
  · exact (C5_top_table_dispatch (P := Nat) ⟨0, 200, []⟩ []
      { initState with BKPT_MAP := [[(100, 7)]] }).2.1 [(100, 7)] rfl (by decide)

/-- Claim C8: when the stack walk yields no frames, the fault path of the
handler prints exactly the header and the single cannot-read-stack line — the
backtrace header is not emitted; with at least one frame the backtrace header
is printed instead and the cannot-read-stack line is absent from the branch. -/
theorem C8_empty_frames {P : Type} (signum : Int) (fault : FaultInfo)
    (s : State P) (h : signum ≠ SIGTRAP) :
    (signal_trap_handler (P := P) signum fault [] s).1 =
      [errorHeader, cannotReadStackMsg] ∧
    backtraceHeader ∉ (signal_trap_handler (P := P) signum fault [] s).1 ∧
    ∀ frames : List WasmFrame, frames ≠ [] →
      (signal_trap_handler (P := P) signum fault frames s).1 =
        errorHeader :: backtraceHeader ::
          (frames.enum.map fun p => frameLines p.1 p.2).flatten := by
  refine ⟨?_, ?_, ?_⟩
  · unfold signal_trap_handler
    rw [if_neg h]
    rfl
  · unfold signal_trap_handler
    rw [if_neg h]
    show backtraceHeader ∉ renderReport []
    decide
  · intro frames hf
    unfold signal_trap_handler
    rw [if_neg h]
    show renderReport frames = _
    unfold renderReport
    rw [if_neg fun hc => hf (List.length_eq_zero.mp hc)]

/-- Witness for C8 at `SIGSEGV` on a fresh thread, with a one-frame backtrace
for the nonempty side. -/
theorem C8_witness :
    SIGSEGV ≠ SIGTRAP ∧
    (signal_trap_handler (P := Nat) SIGSEGV ⟨0, 0, []⟩ [] initState).1 =
      [errorHeader, cannotReadStackMsg] ∧
    backtraceHeader ∉ (signal_trap_handler (P := Nat) SIGSEGV ⟨0, 0, []⟩ [] initState).1 ∧
    (signal_trap_handler (P := Nat) SIGSEGV ⟨0, 0, []⟩ [⟨3, [], []⟩] initState).1 =
      errorHeader :: backtraceHeader ::
        (([⟨3, [], []⟩] : List WasmFrame).enum.map fun p => frameLines p.1 p.2).flatten := by
  have h := C8_empty_frames (P := Nat) SIGSEGV ⟨0, 0, []⟩ initState (by decide)
  exact ⟨by decide, h.1, h.2.1, h.2.2 [⟨3, [], []⟩] (by decide)⟩

end ProtectUnix

